import Mathlib

/-!
Shallow embedding of the Digital Twin Data Integration Platform backend
(FastAPI + SQLAlchemy), covering the parts of the code that the verified
properties below refer to:

* the database rows (app/models/__init__.py): Equipment, Sensor, SensorData;
  timestamps are modelled as rational numbers (seconds), Python floats in
  thresholds/heartbeat ages as rationals, and raw ingestion values as an
  explicit PyFloat type that distinguishes finite values from NaN/Inf;
* the MQTT ingestion path (app/services/protocols/mqtt/client.py):
  message handling, float coercion, identity lookup and the two-commit
  store-then-heartbeat sequence of MQTTService._store_sensor_data (the
  OPC UA path OPCUAService._store_sensor_data is line-for-line the same
  two-commit sequence);
* the monitoring endpoints (app/api/v1/endpoints/monitoring.py): the
  threshold status of get_realtime_data and the health derivation of
  get_equipment_health, including the Python truthiness of the guards
  (a None or 0.0 value is falsy);
* the aggregation branch of query_sensor_data and the anomaly detector
  detect_anomalies (app/api/v1/endpoints/data.py).  The detector's
  floating-point arithmetic (numpy mean/std) is idealised over the real
  numbers, with np.std the population standard deviation.
-/

/-- Python float values as produced by float(...) / json.loads: either a
finite numeric value (idealised as a rational) or one of the non-finite
floats nan, inf, -inf. -/
inductive PyFloat
  | finite (q : ℚ)
  | nan
  | inf
  | ninf
deriving DecidableEq

/-- True exactly for finite Python floats. -/
def PyFloat.isFinite : PyFloat → Bool
  | .finite _ => true
  | _ => false

/-- Row of the equipment table (app/models/__init__.py, class Equipment);
only the columns read or written by the embedded code paths. -/
structure Equipment where
  id : Nat
  equipment_id : String
  is_active : Bool
  is_connected : Bool
  last_heartbeat : Option ℚ
deriving DecidableEq

/-- Row of the sensors table (class Sensor); thresholds are nullable floats,
a Python None is modelled as none. -/
structure Sensor where
  id : Nat
  equipment_id : Nat
  type : String
  warning_threshold : Option ℚ
  critical_threshold : Option ℚ
  is_active : Bool
deriving DecidableEq

/-- Row of the sensor_data table (class SensorData): one persisted Reading. -/
structure Reading where
  equipment_id : Nat
  sensor_id : Nat
  value : PyFloat
  quality : String
  timestamp : ℚ
  source_protocol : String
deriving DecidableEq

/-- The database state visible to the ingestion code: the three tables the
embedded paths touch. -/
structure DB where
  equipment : List Equipment
  sensors : List Sensor
  sensor_data : List Reading
deriving DecidableEq

/-- db.query(Equipment).filter(Equipment.equipment_id == equipment_id).first()
from MQTTService._store_sensor_data: first row matching the external id. -/
def findEquipment (db : DB) (equipment_id : String) : Option Equipment :=
  db.equipment.find? fun e => e.equipment_id == equipment_id

/-- db.query(Sensor).filter(Sensor.equipment_id == equipment.id,
Sensor.type == sensor_type).first(): first sensor of the equipment with the
given type.  Note that neither lookup filters on is_active. -/
def findSensor (db : DB) (eqRowId : Nat) (sensor_type : String) : Option Sensor :=
  db.sensors.find? fun s => s.equipment_id == eqRowId && s.type == sensor_type

/-- The SensorData(...) record built in _store_sensor_data. -/
def mkReading (e : Equipment) (s : Sensor) (value : PyFloat) (quality : String)
    (timestamp : ℚ) (source_protocol : String) : Reading :=
  { equipment_id := e.id, sensor_id := s.id, value := value, quality := quality,
    timestamp := timestamp, source_protocol := source_protocol }

/-- The connectivity update of the second commit: the matched equipment row
gets last_heartbeat = utcnow() and is_connected = True. -/
def markSeen (eqRowId : Nat) (now : ℚ) (e : Equipment) : Equipment :=
  if e.id = eqRowId then { e with last_heartbeat := some now, is_connected := true } else e

/-- Outcome of MQTTService._store_sensor_data.  The code returns early (after
a logged warning) when equipment or sensor is not found; the spec calls this
outcome IdentityError.  On success there are two successive commits: first
the appended Reading, then the connectivity update; the outcome records the
database state after each commit. -/
inductive IngestOutcome
  | identityError (db : DB)
  | stored (afterReadingCommit afterSeenCommit : DB)
deriving DecidableEq

/-- MQTTService._store_sensor_data (identical in OPCUAService): resolve
equipment by external id, resolve sensor by (equipment row id, type), then
commit the new Reading, then commit the heartbeat/connected update. -/
def storeSensorData (db : DB) (equipment_id sensor_type : String) (value : PyFloat)
    (timestamp : ℚ) (quality source_protocol : String) (now : ℚ) : IngestOutcome :=
  match findEquipment db equipment_id with
  | none => .identityError db
  | some equipment =>
    match findSensor db equipment.id sensor_type with
    | none => .identityError db
    | some sensor =>
      let db1 : DB :=
        { db with sensor_data :=
            db.sensor_data ++ [mkReading equipment sensor value quality timestamp source_protocol] }
      let db2 : DB := { db1 with equipment := db1.equipment.map (markSeen equipment.id now) }
      .stored db1 db2

/-- The externally visible database states during one _store_sensor_data
call: the initial state, then the state after each commit.  A reader holding
another session can observe exactly these states. -/
def ingestTrace (db : DB) (equipment_id sensor_type : String) (value : PyFloat)
    (timestamp : ℚ) (quality source_protocol : String) (now : ℚ) : List DB :=
  match storeSensorData db equipment_id sensor_type value timestamp quality source_protocol now with
  | .identityError d => [d]
  | .stored d1 d2 => [db, d1, d2]

/-- Identity resolution as actually performed by _store_sensor_data: the two
first() lookups, ignoring is_active on both rows. -/
def resolveIdentity (db : DB) (equipment_id sensor_type : String) : Option (Equipment × Sensor) :=
  match findEquipment db equipment_id with
  | none => none
  | some e =>
    match findSensor db e.id sensor_type with
    | none => none
    | some s => some (e, s)

/-- JSON values that can appear in an MQTT payload field after json.loads.
Python json.loads maps JSON numbers (including the extension literals NaN,
Infinity, -Infinity) to float/int, true/false to bool, and arrays/objects to
list/dict; float() raises TypeError on list and dict. -/
inductive JsonValue
  | num (x : PyFloat)
  | boolean (b : Bool)
  | arr
  | obj
deriving DecidableEq

/-- Python float(value) on a json.loads result: numbers pass through
(float(nan) = nan, float(inf) = inf), bools coerce to 1.0/0.0, and list/dict
raise TypeError, modelled as none. -/
def pyFloat : JsonValue → Option PyFloat
  | .num x => some x
  | .boolean b => some (.finite (if b then 1 else 0))
  | .arr => none
  | .obj => none

/-- The parsed MQTT payload dict: payload.get of value / timestamp / quality.
A JSON null or absent key both surface as Python None, modelled as none.
Timestamps are taken as already parsed instants. -/
structure MqttPayload where
  value : Option JsonValue
  timestamp : Option ℚ
  quality : Option String
deriving DecidableEq

/-- Final database state of an IngestOutcome (the session state when the
handler returns). -/
def outcomeDb : IngestOutcome → DB
  | .identityError d => d
  | .stored _ d2 => d2

/-- MQTTService._handle_message: split topic, require at least three parts,
take equipment hint and channel hint from parts 1 and 2, skip when the value
is None, coerce with float(value) (an exception is caught by the surrounding
try and the message dropped), default timestamp to arrival time and quality
to GOOD, then call _store_sensor_data. -/
def handleMessage (db : DB) (topicParts : List String) (payload : MqttPayload) (now : ℚ) : DB :=
  if 3 ≤ topicParts.length then
    let equipment_id := topicParts.getD 1 ""
    let sensor_type := topicParts.getD 2 ""
    match payload.value with
    | none => db
    | some v =>
      match pyFloat v with
      | none => db
      | some x =>
        let ts := payload.timestamp.getD now
        let q := payload.quality.getD "GOOD"
        outcomeDb (storeSensorData db equipment_id sensor_type x ts q "MQTT" now)
  else db

/-- Health statuses assigned by get_equipment_health.  The initial "UNKNOWN"
value in the code is always overwritten by the if/else that follows, so only
these three are reachable. -/
inductive HealthStatus
  | healthy
  | degraded
  | offline
deriving DecidableEq

/-- get_equipment_health (monitoring.py lines 186-199): time_since_heartbeat
is None when there is no heartbeat, else now - last_heartbeat in seconds.
The guard is the Python expression
  time_since_heartbeat and time_since_heartbeat < 300
whose first conjunct is truthiness: None and 0.0 are both falsy, so a
heartbeat age of exactly 0 falls into the DEGRADED branch. -/
def healthStatus (is_connected : Bool) (last_heartbeat : Option ℚ) (now : ℚ) : HealthStatus :=
  let time_since : Option ℚ := last_heartbeat.map fun hb => now - hb
  if is_connected then
    match time_since with
    | none => .degraded
    | some d => if d ≠ 0 ∧ d < 300 then .healthy else .degraded
  else .offline

/-- Statuses assigned to a latest reading by get_realtime_data. -/
inductive RtStatus
  | normal
  | warning
  | critical
deriving DecidableEq

/-- The Python guard
  sensor.critical_threshold and reading.value > sensor.critical_threshold:
the threshold is truthy (present and nonzero) and strictly exceeded. -/
def thresholdFlag (t : Option ℚ) (v : ℚ) : Bool :=
  match t with
  | none => false
  | some tv => decide (tv ≠ 0) && decide (tv < v)

/-- get_realtime_data (monitoring.py lines 89-96): CRITICAL when the critical
threshold guard fires, else WARNING when the warning threshold guard fires,
else NORMAL. -/
def realtimeStatus (sensor : Sensor) (v : ℚ) : RtStatus :=
  if thresholdFlag sensor.critical_threshold v then .critical
  else if thresholdFlag sensor.warning_threshold v then .warning
  else .normal

/-- One joined row reaching the aggregation branch of query_sensor_data, as
relevant to the aggregate functions: its value and quality. -/
structure AggRow where
  value : ℚ
  quality : String
deriving DecidableEq

/-- The four aggregation operators of the agg_func table in
query_sensor_data (data.py lines 83-88). -/
inductive AggOp
  | avg
  | min
  | max
  | count
deriving DecidableEq

/-- The SQL aggregate applied to one GROUP BY group of rows, exactly as the
query builds it: func.avg / func.min / func.max / func.count over
SensorData.value of the rows in the group.  No quality filter is applied
anywhere in the query, so every row of the group participates.  SQL
aggregates other than COUNT return NULL on an empty set, modelled as none. -/
def aggValue (op : AggOp) (rows : List AggRow) : Option ℚ :=
  match op with
  | .count => some rows.length
  | .avg => if rows.length = 0 then none else some ((rows.map AggRow.value).sum / rows.length)
  | .min => (rows.map AggRow.value).min?
  | .max => (rows.map AggRow.value).max?

/-- Modelled from the spec ("avg/min/max exclude BAD/UNCERTAIN readings"):
the rows that remain when BAD and UNCERTAIN readings are excluded.  This
definition follows the specification text and exists only to be compared
with aggValue, which follows the code. -/
def goodQualityOnly (rows : List AggRow) : List AggRow :=
  rows.filter fun r => !(r.quality == "BAD" || r.quality == "UNCERTAIN")

/-- One data point reaching detect_anomalies after the time filter: its
grouping identity, its float value (idealised as a real number) and its
timestamp. -/
structure DataPoint where
  equipment_id : String
  sensor_type : String
  value : ℝ
  timestamp : ℚ

/-- np.mean over a list of values: sum divided by length. -/
noncomputable def npMean (values : List ℝ) : ℝ :=
  values.sum / values.length

/-- np.std over a list of values with the default ddof = 0: the population
standard deviation, the square root of the mean squared deviation from the
mean. -/
noncomputable def npStd (values : List ℝ) : ℝ :=
  Real.sqrt ((values.map fun v => (v - npMean values) ^ 2).sum / values.length)

/-- Severity labels assigned by detect_anomalies. -/
inductive Severity
  | high
  | medium
deriving DecidableEq

/-- One anomaly record appended by detect_anomalies, with the fields the
code emits: identity, value, expected range endpoints, deviation score,
timestamp and severity. -/
structure Anomaly where
  equipment_id : String
  sensor_type : String
  value : ℝ
  expected_lo : ℝ
  expected_hi : ℝ
  deviation : ℝ
  timestamp : ℚ
  severity : Severity

/-- The per-group body of the loop in detect_anomalies (data.py lines
257-273): with mean_val = np.mean(values), std_val = np.std(values) and
threshold = threshold_multiplier * std_val, every point whose absolute
deviation from the mean strictly exceeds the threshold is reported, in
order, with deviation score |value - mean| / std and severity HIGH exactly
when the absolute deviation strictly exceeds 3 * std. -/
noncomputable def detectGroup (points : List DataPoint) (m : ℝ) : List Anomaly :=
  (points.filter fun p =>
      decide (|p.value - npMean (points.map DataPoint.value)| >
        m * npStd (points.map DataPoint.value))).map fun p =>
    { equipment_id := p.equipment_id, sensor_type := p.sensor_type, value := p.value,
      expected_lo := npMean (points.map DataPoint.value) - m * npStd (points.map DataPoint.value),
      expected_hi := npMean (points.map DataPoint.value) + m * npStd (points.map DataPoint.value),
      deviation := |p.value - npMean (points.map DataPoint.value)| /
        npStd (points.map DataPoint.value),
      timestamp := p.timestamp,
      severity :=
        if |p.value - npMean (points.map DataPoint.value)| >
            3 * npStd (points.map DataPoint.value)
        then .high else .medium }

/-- The grouping key f-string of detect_anomalies:
f"{equipment_id}_{sensor_type}". -/
def groupKey (p : DataPoint) : String :=
  p.equipment_id ++ "_" ++ p.sensor_type

/-- Append a point under its key, preserving the insertion order of keys and
of points within a key, exactly as the Python dict of lists is built. -/
def insertGrouped (acc : List (String × List DataPoint)) (k : String) (p : DataPoint) :
    List (String × List DataPoint) :=
  match acc with
  | [] => [(k, [p])]
  | (k0, ps) :: rest =>
    if k0 = k then (k0, ps ++ [p]) :: rest else (k0, ps) :: insertGrouped rest k p

/-- The grouped_data dict of detect_anomalies (data.py lines 244-249):
points grouped by key in insertion order. -/
def groupData (points : List DataPoint) : List (String × List DataPoint) :=
  points.foldl (fun acc p => insertGrouped acc (groupKey p) p) []

/-- Stable insertion into a list that is sorted by descending deviation:
the new element goes after every element with strictly larger deviation and
before ties, matching the stability of Python list.sort. -/
noncomputable def insertDesc (a : Anomaly) : List Anomaly → List Anomaly
  | [] => [a]
  | b :: bs => if b.deviation > a.deviation then b :: insertDesc a bs else a :: b :: bs

/-- anomalies.sort(key=lambda x: x["deviation"], reverse=True): a stable
sort by descending deviation score, modelled as insertion sort. -/
noncomputable def sortByDeviationDesc (l : List Anomaly) : List Anomaly :=
  l.foldr insertDesc []

/-- Result of one AnalysisResult-carrying run of detect_anomalies: the
total_points_analyzed, anomalies_detected and (truncated) anomalies fields
of the returned JSON object. -/
structure AnalysisResult where
  totalPoints : Nat
  anomaliesDetected : Nat
  anomalies : List Anomaly

/-- The two distinguishable response shapes of detect_anomalies: the early
"Insufficient data for anomaly detection" message object (which carries no
analysis fields) and the full analysis object. -/
inductive DetectResult
  | insufficientData
  | analysis (r : AnalysisResult)

/-- detect_anomalies (data.py lines 213-288) after the time/identity
filters produced data_points: fewer than 10 points short-circuit to the
insufficient-data message; otherwise the points are grouped, groups of
fewer than 5 samples are skipped, each remaining group is analysed with
detectGroup, the anomalies are sorted by descending deviation, counted,
and truncated to the top 50. -/
noncomputable def detect (points : List DataPoint) (m : ℝ) : DetectResult :=
  if points.length < 10 then .insufficientData
  else
    let anomalies := (groupData points).foldl
      (fun acc g => if g.2.length < 5 then acc else acc ++ detectGroup g.2 m) []
    let sorted := sortByDeviationDesc anomalies
    .analysis { totalPoints := points.length, anomaliesDetected := sorted.length,
                anomalies := sorted.take 50 }

/-- Concrete aggregation group: one GOOD reading of value 1 next to one BAD
reading of value 3. -/
def c1rows : List AggRow :=
  [{ value := 1, quality := "GOOD" }, { value := 3, quality := "BAD" }]

/-- Concrete database with one resolvable, active equipment/sensor pair. -/
def c2db : DB :=
  { equipment := [{ id := 1, equipment_id := "eq1", is_active := true,
                    is_connected := false, last_heartbeat := none }],
    sensors := [{ id := 1, equipment_id := 1, type := "temp",
                  warning_threshold := none, critical_threshold := none, is_active := true }],
    sensor_data := [] }

/-- Concrete database whose only equipment is deactivated (is_active false)
but still present, with a matching sensor. -/
def c3db : DB :=
  { equipment := [{ id := 1, equipment_id := "eq1", is_active := false,
                    is_connected := false, last_heartbeat := none }],
    sensors := [{ id := 1, equipment_id := 1, type := "temp",
                  warning_threshold := none, critical_threshold := none, is_active := true }],
    sensor_data := [] }

/-- Concrete group of five identical readings. -/
def c4pts : List DataPoint :=
  [{ equipment_id := "eq1", sensor_type := "temp", value := 7, timestamp := 0 },
   { equipment_id := "eq1", sensor_type := "temp", value := 7, timestamp := 1 },
   { equipment_id := "eq1", sensor_type := "temp", value := 7, timestamp := 2 },
   { equipment_id := "eq1", sensor_type := "temp", value := 7, timestamp := 3 },
   { equipment_id := "eq1", sensor_type := "temp", value := 7, timestamp := 4 }]

/-- Concrete database with one resolvable pair and a disconnected equipment,
used to run one ingestion. -/
def c6db : DB :=
  { equipment := [{ id := 1, equipment_id := "eq1", is_active := true,
                    is_connected := false, last_heartbeat := none }],
    sensors := [{ id := 1, equipment_id := 1, type := "temp",
                  warning_threshold := none, critical_threshold := none, is_active := true }],
    sensor_data := [] }

/-- The state after both commits of ingesting value 7 at timestamp 2 with
receipt time 3 into c6db. -/
def c6dbAfter : DB :=
  { equipment := [{ id := 1, equipment_id := "eq1", is_active := true,
                    is_connected := true, last_heartbeat := some 3 }],
    sensors := [{ id := 1, equipment_id := 1, type := "temp",
                  warning_threshold := none, critical_threshold := none, is_active := true }],
    sensor_data := [{ equipment_id := 1, sensor_id := 1, value := PyFloat.finite 7,
                      quality := "GOOD", timestamp := 2, source_protocol := "MQTT" }] }

/-- The group of the spec worked example: values 10, 10, 10, 10, 10, 100. -/
def c7points : List DataPoint :=
  [{ equipment_id := "eq1", sensor_type := "temp", value := 10, timestamp := 0 },
   { equipment_id := "eq1", sensor_type := "temp", value := 10, timestamp := 1 },
   { equipment_id := "eq1", sensor_type := "temp", value := 10, timestamp := 2 },
   { equipment_id := "eq1", sensor_type := "temp", value := 10, timestamp := 3 },
   { equipment_id := "eq1", sensor_type := "temp", value := 10, timestamp := 4 },
   { equipment_id := "eq1", sensor_type := "temp", value := 100, timestamp := 5 }]

/-- Ten points spread over three (equipment, sensor) groups of sizes 4, 4
and 2, so no group reaches the 5-sample minimum. -/
def c10pts : List DataPoint :=
  [{ equipment_id := "a", sensor_type := "t", value := 1, timestamp := 0 },
   { equipment_id := "a", sensor_type := "t", value := 2, timestamp := 1 },
   { equipment_id := "a", sensor_type := "t", value := 3, timestamp := 2 },
   { equipment_id := "a", sensor_type := "t", value := 4, timestamp := 3 },
   { equipment_id := "b", sensor_type := "t", value := 1, timestamp := 4 },
   { equipment_id := "b", sensor_type := "t", value := 2, timestamp := 5 },
   { equipment_id := "b", sensor_type := "t", value := 3, timestamp := 6 },
   { equipment_id := "b", sensor_type := "t", value := 4, timestamp := 7 },
   { equipment_id := "c", sensor_type := "t", value := 1, timestamp := 8 },
   { equipment_id := "c", sensor_type := "t", value := 2, timestamp := 9 }]

/-- Claim C1, counterexample: in the group c1rows the BAD reading of value 3
is not excluded from the avg aggregate.  The code computes avg = 2 over both
readings, while excluding BAD/UNCERTAIN readings (goodQualityOnly, the
policy the claim states) would give avg = 1, so the claimed exclusion is
false on the code. -/
theorem c1_counterexample_bad_included_in_avg :
    aggValue AggOp.avg c1rows = some 2 ∧
    aggValue AggOp.avg (goodQualityOnly c1rows) = some 1 ∧
    aggValue AggOp.avg c1rows ≠ aggValue AggOp.avg (goodQualityOnly c1rows) := by
  have hg : goodQualityOnly c1rows = [{ value := 1, quality := "GOOD" }] := by decide
  have h1 : aggValue AggOp.avg c1rows = some 2 := by norm_num [aggValue, c1rows]
  have h2 : aggValue AggOp.avg (goodQualityOnly c1rows) = some 1 := by
    rw [hg]; norm_num [aggValue]
  refine ⟨h1, h2, ?_⟩
  rw [h1, h2]
  simp

/-- Claim C1 (amended): for every aggregation op, avg, min, max and count
alike, readings of every quality are included in the aggregate — the
aggregation never inspects quality, so relabelling qualities arbitrarily
leaves every aggregate unchanged. -/
theorem c1_aggregation_ignores_quality (op : AggOp) (rows : List AggRow)
    (f : AggRow → String) :
    aggValue op (rows.map fun r => { r with quality := f r }) = aggValue op rows := by
  have hv : (rows.map fun r => { r with quality := f r }).map AggRow.value =
      rows.map AggRow.value := by
    rw [List.map_map]
    exact List.map_congr_left fun r _ => rfl
  cases op <;> simp [aggValue, hv]

/-- Claim C2, counterexample: an MQTT message whose JSON value is the
non-finite float Infinity is not rejected; float(inf) succeeds, and a
Reading with a non-finite value is written to the Store. -/
theorem c2_counterexample_infinite_value_stored :
    (handleMessage c2db ["equipment", "eq1", "temp"]
        { value := some (JsonValue.num PyFloat.inf), timestamp := some 0, quality := none }
        1).sensor_data =
      [{ equipment_id := 1, sensor_id := 1, value := PyFloat.inf, quality := "GOOD",
         timestamp := 0, source_protocol := "MQTT" }] ∧
    ((handleMessage c2db ["equipment", "eq1", "temp"]
        { value := some (JsonValue.num PyFloat.inf), timestamp := some 0, quality := none }
        1).sensor_data.any fun r => !r.value.isFinite) = true := by
  decide

/-- Claim C2 (amended): ingestion drops an event whose value cannot be
coerced by float() (absent value, or a value on which float raises), leaving
the Store unchanged; but NaN and infinite values coerce successfully, so a
Reading with a non-finite value can be written (see the counterexample). -/
theorem c2_uncoercible_value_dropped (db : DB) (topicParts : List String)
    (payload : MqttPayload) (now : ℚ)
    (h : ∀ v, payload.value = some v → pyFloat v = none) :
    handleMessage db topicParts payload now = db := by
  unfold handleMessage
  split
  · cases hv : payload.value with
    | none => rfl
    | some v => simp [h v hv]
  · rfl

/-- Witness for c2_uncoercible_value_dropped: a payload whose value is a
JSON object (float raises TypeError) is dropped and the database is
unchanged. -/
theorem c2_uncoercible_value_dropped_witness :
    (∀ v, ({ value := some JsonValue.obj, timestamp := none, quality := none } :
        MqttPayload).value = some v → pyFloat v = none) ∧
    handleMessage c2db ["equipment", "eq1", "temp"]
      { value := some JsonValue.obj, timestamp := none, quality := none } 1 = c2db :=
  ⟨fun v hv => by cases hv; rfl,
   c2_uncoercible_value_dropped c2db ["equipment", "eq1", "temp"]
     { value := some JsonValue.obj, timestamp := none, quality := none } 1
     (fun v hv => by cases hv; rfl)⟩

/-- Claim C3, counterexample: in c3db every equipment row is inactive
(is_active false), yet ingesting an event for it does not return an
IdentityError — the lookup never filters on is_active, a Reading is
fabricated and the connectivity state is updated, contradicting the claim
that no reading is stored for a pair that is not existing-and-active. -/
theorem c3_counterexample_inactive_pair_stored :
    (c3db.equipment.all fun e => !e.is_active) = true ∧
    storeSensorData c3db "eq1" "temp" (PyFloat.finite 7) 0 "GOOD" "MQTT" 1 =
      IngestOutcome.stored
        { equipment := [{ id := 1, equipment_id := "eq1", is_active := false,
                          is_connected := false, last_heartbeat := none }],
          sensors := [{ id := 1, equipment_id := 1, type := "temp",
                        warning_threshold := none, critical_threshold := none,
                        is_active := true }],
          sensor_data := [{ equipment_id := 1, sensor_id := 1, value := PyFloat.finite 7,
                            quality := "GOOD", timestamp := 0, source_protocol := "MQTT" }] }
        { equipment := [{ id := 1, equipment_id := "eq1", is_active := false,
                          is_connected := true, last_heartbeat := some 1 }],
          sensors := [{ id := 1, equipment_id := 1, type := "temp",
                        warning_threshold := none, critical_threshold := none,
                        is_active := true }],
          sensor_data := [{ equipment_id := 1, sensor_id := 1, value := PyFloat.finite 7,
                            quality := "GOOD", timestamp := 0, source_protocol := "MQTT" }] } := by
  decide

/-- Claim C3 (amended): for every incoming event whose equipment hint or
channel hint does not resolve to an existing Equipment/Sensor pair (active
or not — the lookups ignore is_active), ingestion returns an IdentityError
and both the Store contents and the connectivity state are left exactly
unchanged: the only externally visible state is the original database. -/
theorem c3_unresolvable_event_unchanged (db : DB) (eid stype : String) (v : PyFloat)
    (ts : ℚ) (q sp : String) (now : ℚ)
    (h : resolveIdentity db eid stype = none) :
    storeSensorData db eid stype v ts q sp now = IngestOutcome.identityError db ∧
    ingestTrace db eid stype v ts q sp now = [db] := by
  have h1 : storeSensorData db eid stype v ts q sp now = IngestOutcome.identityError db := by
    unfold storeSensorData
    split
    · rfl
    · rename_i e hE
      split
      · rfl
      · rename_i s hS
        unfold resolveIdentity at h
        simp [hE, hS] at h
  refine ⟨h1, ?_⟩
  unfold ingestTrace
  rw [h1]

/-- Witness for c3_unresolvable_event_unchanged: ingesting into an empty
database is an IdentityError and its trace shows only the unchanged
database. -/
theorem c3_unresolvable_event_unchanged_witness :
    resolveIdentity { equipment := [], sensors := [], sensor_data := [] } "eq1" "temp" = none ∧
    (storeSensorData { equipment := [], sensors := [], sensor_data := [] } "eq1" "temp"
        (PyFloat.finite 7) 0 "GOOD" "MQTT" 1 =
      IngestOutcome.identityError { equipment := [], sensors := [], sensor_data := [] } ∧
    ingestTrace { equipment := [], sensors := [], sensor_data := [] } "eq1" "temp"
        (PyFloat.finite 7) 0 "GOOD" "MQTT" 1 =
      [{ equipment := [], sensors := [], sensor_data := [] }]) :=
  ⟨by decide,
   c3_unresolvable_event_unchanged { equipment := [], sensors := [], sensor_data := [] }
     "eq1" "temp" (PyFloat.finite 7) 0 "GOOD" "MQTT" 1 (by decide)⟩

/-- Claim C5, counterexample: an equipment that is connected and whose last
heartbeat is exactly the query instant (age 0, well within the 300 s
staleness window) is reported DEGRADED, not HEALTHY: the Python guard
treats the age 0.0 as falsy.  This refutes the claimed biconditional
"HEALTHY iff connected and heartbeat within the window". -/
theorem c5_counterexample_zero_age_degraded :
    healthStatus true (some 100) 100 = HealthStatus.degraded ∧
    (100 : ℚ) - 100 < 300 ∧
    healthStatus true (some 100) 100 ≠ HealthStatus.healthy := by
  have hs : healthStatus true (some 100) 100 = HealthStatus.degraded := by
    have hcond : ¬((100 : ℚ) - 100 ≠ 0 ∧ (100 : ℚ) - 100 < 300) := by norm_num
    simp [healthStatus, hcond]
  refine ⟨hs, by norm_num, ?_⟩
  rw [hs]
  intro hcontra
  cases hcontra

/-- Claim C5 (amended): health is HEALTHY iff the equipment is connected and
has a heartbeat whose age is nonzero and under 300 s (an age of exactly 0 is
falsy in the guard and falls to DEGRADED); DEGRADED iff connected with no
heartbeat, a zero age, or an age of at least 300 s; OFFLINE iff not
connected. -/
theorem c5_health_derivation (c : Bool) (hb : Option ℚ) (now : ℚ) :
    (healthStatus c hb now = HealthStatus.healthy ↔
      c = true ∧ ∃ h, hb = some h ∧ now - h ≠ 0 ∧ now - h < 300) ∧
    (healthStatus c hb now = HealthStatus.degraded ↔
      c = true ∧ ∀ h, hb = some h → (now - h = 0 ∨ 300 ≤ now - h)) ∧
    (healthStatus c hb now = HealthStatus.offline ↔ c = false) := by
  cases c with
  | false => cases hb <;> simp [healthStatus]
  | true =>
    cases hb with
    | none => simp [healthStatus]
    | some h =>
      have hs : healthStatus true (some h) now =
          if now - h ≠ 0 ∧ now - h < 300 then HealthStatus.healthy
          else HealthStatus.degraded := by
        simp [healthStatus]
      by_cases hd : now - h ≠ 0 ∧ now - h < 300
      · rw [hs, if_pos hd]
        refine ⟨?_, ?_, ?_⟩
        · exact ⟨fun _ => ⟨rfl, h, rfl, hd.1, hd.2⟩, fun _ => rfl⟩
        · constructor
          · intro hcontra; cases hcontra
          · rintro ⟨-, hall⟩
            rcases hall h rfl with h0 | h300
            · exact absurd h0 hd.1
            · exact absurd hd.2 (not_lt.mpr h300)
        · constructor
          · intro hcontra; cases hcontra
          · intro hfalse; cases hfalse
      · rw [hs, if_neg hd]
        rw [not_and_or, not_not, not_lt] at hd
        refine ⟨?_, ?_, ?_⟩
        · constructor
          · intro hcontra; cases hcontra
          · rintro ⟨-, h0, heq, hne, hlt⟩
            cases heq
            rcases hd with h0 | h300
            · exact absurd h0 hne
            · exact absurd hlt (not_lt.mpr h300)
        · refine ⟨fun _ => ⟨rfl, fun h0 heq => ?_⟩, fun _ => rfl⟩
          cases heq
          exact hd
        · constructor
          · intro hcontra; cases hcontra
          · intro hfalse; cases hfalse

/-- Characterisation of the Python threshold guard: it fires exactly when
the threshold is present, nonzero and strictly below the value. -/
theorem thresholdFlag_iff (t : Option ℚ) (v : ℚ) :
    thresholdFlag t v = true ↔ ∃ tv, t = some tv ∧ tv ≠ 0 ∧ tv < v := by
  cases t <;> simp [thresholdFlag]

/-- Claim C9: the real-time status treats a 0.0 threshold like an absent
one: the status is CRITICAL iff the critical threshold is present, nonzero
and strictly exceeded; WARNING iff that fails and the warning threshold is
present, nonzero and strictly exceeded; NORMAL otherwise.  In particular
only strictly-greater comparisons are used (values below any bound are
never flagged) and a value above a threshold of 0.0 is NORMAL. -/
theorem c9_realtime_threshold_semantics (sensor : Sensor) (v : ℚ) :
    (realtimeStatus sensor v = RtStatus.critical ↔
      ∃ t, sensor.critical_threshold = some t ∧ t ≠ 0 ∧ t < v) ∧
    (realtimeStatus sensor v = RtStatus.warning ↔
      ¬(∃ t, sensor.critical_threshold = some t ∧ t ≠ 0 ∧ t < v) ∧
      ∃ t, sensor.warning_threshold = some t ∧ t ≠ 0 ∧ t < v) ∧
    (realtimeStatus sensor v = RtStatus.normal ↔
      ¬(∃ t, sensor.critical_threshold = some t ∧ t ≠ 0 ∧ t < v) ∧
      ¬(∃ t, sensor.warning_threshold = some t ∧ t ≠ 0 ∧ t < v)) := by
  rw [← thresholdFlag_iff sensor.critical_threshold v,
      ← thresholdFlag_iff sensor.warning_threshold v]
  unfold realtimeStatus
  cases hcb : thresholdFlag sensor.critical_threshold v <;>
    cases hwb : thresholdFlag sensor.warning_threshold v <;> simp

/-- Claim C6: in every successful ingestion, the Reading commit precedes the
connectivity update.  Over the trace of externally visible states of one
_store_sensor_data call, any state in which the equipment table differs from
the initial one (i.e. the connectivity update of this ingestion has become
visible) already contains the corresponding persisted Reading: the code
commits the SensorData row first and only then commits
last_heartbeat/is_connected. -/
theorem c6_reading_committed_before_connected (db : DB) (eid stype : String)
    (v : PyFloat) (ts : ℚ) (q sp : String) (now : ℚ) (s : DB)
    (hs : s ∈ ingestTrace db eid stype v ts q sp now)
    (hconn : s.equipment ≠ db.equipment) :
    ∃ r, s.sensor_data = db.sensor_data ++ [r] ∧ r.value = v ∧ r.timestamp = ts ∧
      r.quality = q := by
  unfold ingestTrace at hs
  split at hs
  · rename_i d hd
    have hdb : d = db := by
      unfold storeSensorData at hd
      split at hd
      · cases hd; rfl
      · split at hd
        · cases hd; rfl
        · cases hd
    simp only [List.mem_singleton] at hs
    exact absurd (by rw [hs, hdb]) hconn
  · rename_i d1 d2 hd
    unfold storeSensorData at hd
    split at hd
    · cases hd
    · rename_i e hE
      split at hd
      · cases hd
      · rename_i s0 hS
        injection hd with h1 h2
        simp only [List.mem_cons, List.mem_singleton, List.not_mem_nil, or_false] at hs
        rcases hs with hsdb | hs1 | hs2
        · exact absurd (by rw [hsdb]) hconn
        · exact absurd (by rw [hs1, ← h1]) hconn
        · refine ⟨mkReading e s0 v q ts sp, ?_, rfl, rfl, rfl⟩
          rw [hs2, ← h2]

/-- Witness for c6_reading_committed_before_connected: a concrete ingestion
into c6db; the post-connectivity state c6dbAfter lies on the trace, its
equipment table differs from the initial one, and it contains the persisted
Reading. -/
theorem c6_reading_committed_before_connected_witness :
    c6dbAfter ∈ ingestTrace c6db "eq1" "temp" (PyFloat.finite 7) 2 "GOOD" "MQTT" 3 ∧
    c6dbAfter.equipment ≠ c6db.equipment ∧
    (∃ r, c6dbAfter.sensor_data = c6db.sensor_data ++ [r] ∧ r.value = PyFloat.finite 7 ∧
      r.timestamp = 2 ∧ r.quality = "GOOD") :=
  ⟨by decide, by decide,
   c6_reading_committed_before_connected c6db "eq1" "temp" (PyFloat.finite 7) 2 "GOOD"
     "MQTT" 3 c6dbAfter (by decide) (by decide)⟩

/-- Claim C8: with fewer than 10 points in the lookback window the detector
returns the explicit insufficient-data result, which is a different
constructor from every normal analysis result (in the code, a response with
a "message" field and no analysis fields), so the two are always
distinguishable. -/
theorem c8_insufficient_data_distinct (points : List DataPoint) (m : ℝ)
    (h : points.length < 10) :
    detect points m = DetectResult.insufficientData ∧
    ∀ r, DetectResult.insufficientData ≠ DetectResult.analysis r := by
  constructor
  · unfold detect
    rw [if_pos h]
  · intro r hcontra
    cases hcontra

/-- Witness for c8_insufficient_data_distinct at the empty window. -/
theorem c8_insufficient_data_distinct_witness :
    ([] : List DataPoint).length < 10 ∧
    (detect [] 0 = DetectResult.insufficientData ∧
     ∀ r, DetectResult.insufficientData ≠ DetectResult.analysis r) :=
  ⟨by decide, c8_insufficient_data_distinct [] 0 (by decide)⟩

/-- Folding the per-group analysis over groups that are all smaller than 5
samples leaves the accumulator unchanged: every group hits the continue
branch. -/
theorem foldl_skips_small_groups (m : ℝ) (gs : List (String × List DataPoint))
    (acc : List Anomaly) (h : ∀ g ∈ gs, g.2.length < 5) :
    gs.foldl (fun acc g => if g.2.length < 5 then acc else acc ++ detectGroup g.2 m) acc
      = acc := by
  induction gs generalizing acc with
  | nil => rfl
  | cons g rest ih =>
    rw [List.foldl_cons, if_pos (h g (by simp))]
    exact ih acc fun g0 hg0 => h g0 (by simp [hg0])

/-- Claim C10: when the window holds at least 10 points but every
(equipment, sensor) group has fewer than 5 samples, the detector does not
return InsufficientData; it returns the normal analysis result carrying the
total point count and an empty anomaly list. -/
theorem c10_small_groups_normal_result (points : List DataPoint) (m : ℝ)
    (h10 : 10 ≤ points.length)
    (hsmall : ∀ g ∈ groupData points, g.2.length < 5) :
    detect points m = DetectResult.analysis
      { totalPoints := points.length, anomaliesDetected := 0, anomalies := [] } := by
  simp only [detect]
  rw [if_neg (Nat.not_lt.mpr h10)]
  rw [foldl_skips_small_groups m (groupData points) [] hsmall]
  rfl

/-- Witness for c10_small_groups_normal_result: ten points in groups of
sizes 4, 4 and 2. -/
theorem c10_small_groups_normal_result_witness :
    10 ≤ c10pts.length ∧ (∀ g ∈ groupData c10pts, g.2.length < 5) ∧
    detect c10pts 2 = DetectResult.analysis
      { totalPoints := c10pts.length, anomaliesDetected := 0, anomalies := [] } :=
  ⟨by decide, by decide, c10_small_groups_normal_result c10pts 2 (by decide) (by decide)⟩

/-- Sum of a list all of whose elements equal x. -/
theorem sum_of_constant_list (x : ℝ) (l : List ℝ) (h : ∀ v ∈ l, v = x) :
    l.sum = l.length * x := by
  induction l with
  | nil => simp
  | cons a t ih =>
    rw [List.sum_cons, h a (by simp), ih fun v hv => h v (by simp [hv]), List.length_cons]
    push_cast
    ring

/-- np.mean of a nonempty constant list is that constant. -/
theorem npMean_constant (x : ℝ) (l : List ℝ) (hne : l ≠ []) (h : ∀ v ∈ l, v = x) :
    npMean l = x := by
  have hlen : (l.length : ℝ) ≠ 0 :=
    Nat.cast_ne_zero.mpr (Nat.pos_iff_ne_zero.mp (List.length_pos.mpr hne))
  unfold npMean
  rw [sum_of_constant_list x l h, mul_comm, mul_div_assoc, div_self hlen, mul_one]

/-- np.std of a nonempty constant list is exactly 0. -/
theorem npStd_constant (x : ℝ) (l : List ℝ) (hne : l ≠ []) (h : ∀ v ∈ l, v = x) :
    npStd l = 0 := by
  unfold npStd
  have hz : (l.map fun v => (v - npMean l) ^ 2).sum = 0 := by
    apply List.sum_eq_zero
    intro y hy
    simp only [List.mem_map] at hy
    obtain ⟨v, hv, rfl⟩ := hy
    rw [h v hv, npMean_constant x l hne h]
    ring
  rw [hz, zero_div, Real.sqrt_zero]

/-- Claim C4: a group whose values are all equal has population standard
deviation exactly 0, so the anomaly threshold is 0 and no point can deviate
from the mean: the per-group analysis reports no anomalies for any
threshold multiplier.  Since the anomaly list is built by filtering first
and the deviation score |value - mean| / std is computed only for points
that pass the filter, the division by the zero standard deviation is never
executed. -/
theorem c4_constant_group_no_anomalies (points : List DataPoint) (m x : ℝ)
    (hne : points ≠ []) (h : ∀ p ∈ points, p.value = x) :
    detectGroup points m = [] := by
  have hvne : points.map DataPoint.value ≠ [] := by
    simpa using hne
  have hvals : ∀ v ∈ points.map DataPoint.value, v = x := by
    intro v hv
    simp only [List.mem_map] at hv
    obtain ⟨p, hp, rfl⟩ := hv
    exact h p hp
  have hm := npMean_constant x _ hvne hvals
  have hsd := npStd_constant x _ hvne hvals
  unfold detectGroup
  have hf : (points.filter fun p =>
      decide (|p.value - npMean (points.map DataPoint.value)| >
        m * npStd (points.map DataPoint.value))) = [] := by
    rw [List.filter_eq_nil_iff]
    intro p hp
    simp [hm, hsd, h p hp]
  rw [hf]
  rfl

/-- Witness for c4_constant_group_no_anomalies: five identical readings of
value 7 with multiplier 2 produce no anomalies. -/
theorem c4_constant_group_no_anomalies_witness :
    c4pts ≠ [] ∧ (∀ p ∈ c4pts, p.value = 7) ∧ detectGroup c4pts 2 = [] :=
  ⟨by simp [c4pts], by simp [c4pts],
   c4_constant_group_no_anomalies c4pts 2 7 (by simp [c4pts]) (by simp [c4pts])⟩

/-- Claim C7: on the group with values 10, 10, 10, 10, 10, 100 and threshold
multiplier 2, the analysis (sample mean 25, population standard deviation
sqrt 1125, threshold 2 * sqrt 1125 which is about 67.1) reports exactly one
anomaly, the reading of value 100 (deviating 75 from the mean), and its
severity is determined by the 3-sigma comparison: 75 does not exceed
3 * sqrt 1125 (about 100.6), so the severity is MEDIUM. -/
theorem c7_spec_example_single_anomaly :
    detectGroup c7points 2 =
      [{ equipment_id := "eq1", sensor_type := "temp", value := 100,
         expected_lo := 25 - 2 * Real.sqrt 1125, expected_hi := 25 + 2 * Real.sqrt 1125,
         deviation := 75 / Real.sqrt 1125, timestamp := 5, severity := Severity.medium }] ∧
    ¬((75 : ℝ) > 3 * Real.sqrt 1125) := by
  have hvs : c7points.map DataPoint.value = [10, 10, 10, 10, 10, 100] := rfl
  have hm : npMean (c7points.map DataPoint.value) = 25 := by
    rw [hvs]
    unfold npMean
    norm_num
  have hsd : npStd (c7points.map DataPoint.value) = Real.sqrt 1125 := by
    have hinner : ((c7points.map DataPoint.value).map
        (fun v => (v - npMean (c7points.map DataPoint.value)) ^ 2)).sum /
        ((c7points.map DataPoint.value).length : ℝ) = (1125 : ℝ) := by
      simp only [hm]
      rw [hvs]
      norm_num
    unfold npStd
    rw [hinner]
  have habs10 : |(10 : ℝ) - 25| = 15 := by
    rw [abs_of_nonpos] <;> norm_num
  have habs100 : |(100 : ℝ) - 25| = 75 := by
    rw [abs_of_nonneg] <;> norm_num
  have hlo : ¬((15 : ℝ) > 2 * Real.sqrt 1125) := by
    have h1 : (7.5 : ℝ) ≤ Real.sqrt 1125 := (Real.le_sqrt (by norm_num) (by norm_num)).mpr
      (by norm_num)
    rw [not_lt]
    linarith
  have hhi : (75 : ℝ) > 2 * Real.sqrt 1125 := by
    have h1 : Real.sqrt 1125 < 37.5 := (Real.sqrt_lt' (by norm_num)).mpr (by norm_num)
    linarith
  have h3 : ¬((75 : ℝ) > 3 * Real.sqrt 1125) := by
    have h1 : (25 : ℝ) ≤ Real.sqrt 1125 := (Real.le_sqrt (by norm_num) (by norm_num)).mpr
      (by norm_num)
    rw [not_lt]
    linarith
  refine ⟨?_, h3⟩
  unfold detectGroup
  simp only [hm, hsd]
  simp only [c7points, List.filter_cons, List.filter_nil, decide_eq_true_eq,
    habs10, habs100, hlo, hhi, h3, if_true, if_false, List.map_cons, List.map_nil]
